import Mathlib

/-!
Shallow embedding of the trollup sequencer core
(src/trollup-sequencer/src/main.rs) together with the transaction types it
operates on, and of the fusion-api transaction hash stub
(src/fusion-api/src/lib.rs).  Machine integers (the Rust `U256` balances,
nonces and values, and the 160-bit addresses) are modelled as `Nat`:
the `ethers` `U256` arithmetic used by the code panics on overflow or
underflow rather than wrapping, so the `Nat` model agrees with the code on
every non-panicking execution, and the underflow question itself is stated
explicitly as a balance-precondition property on the fold.
-/

namespace Trollup

/-- 160-bit account identifier (`ethers::types::Address`), modelled as `Nat`. -/
abbrev Address := Nat

/-- Modelled from the spec: `trollup_types::PublicKey` (the curve point) is an
external collaborator not under src/; the spec only compares keys for equality
and derives an address from them, so the key is modelled as its numeric
value. -/
structure PublicKey where
  key : Nat
  deriving DecidableEq, Repr

/-- Modelled from the spec: the address derivation `PublicKey::address()` is
external code not under src/.  The spec treats it as an opaque derivation of a
160-bit identifier from the embedded public key; it is modelled as the
identity embedding, under which distinct keys have distinct addresses. -/
def PublicKey.address (pk : PublicKey) : Address := pk.key

/-- Transaction kind (src/fusion-api mirrors this shape; the sequencer treats
all three variants identically). -/
inductive TxKind where
  | Transfer
  | Deposit
  | Withdraw
  deriving DecidableEq, Repr

/-- The transaction record `{kind, sender, to, nonce, value}`. -/
structure Tx where
  kind : TxKind
  sender : PublicKey
  «to» : PublicKey
  nonce : Nat
  value : Nat
  deriving DecidableEq, Repr

/-- Modelled from the spec: the signature blob is opaque and its verification
is delegated to the external signature collaborator
(`trollup_signature::verify_tx_signature`, not under src/).  The blob is
modelled as the single bit the core ever observes: whether verification
succeeds. -/
structure Sig where
  valid : Bool
  deriving DecidableEq, Repr

/-- A transaction plus its opaque signature blob. -/
structure SignedTx where
  tx : Tx
  signature : Sig
  deriving DecidableEq, Repr

/-- The account record `{address, balance, nonce}`
(`trollup_prover::state::Account`). -/
structure Account where
  address : Address
  balance : Nat
  nonce : Nat
  deriving DecidableEq, Repr

/-- Modelled from the spec: the state storage collaborator
(`trollup_prover::state::State`) is not under src/.  The spec specifies
`get(address) -> Account` with a zero-account default for unknown addresses
and `update(address, Account)` returning a new snapshot that differs only at
that address; a snapshot is therefore modelled extensionally as the total
account mapping `get` denotes. -/
structure State where
  get : Address → Account

/-- `State::update`: a new snapshot mapping `a` to `acc` and every other
address to its previous account. -/
def State.update (s : State) (a : Address) (acc : Account) : State :=
  ⟨fun x => if x = a then acc else s.get x⟩

/-- The genesis `State::default()`: every address holds the zero account. -/
def State.default : State := ⟨fun a => ⟨a, 0, 0⟩⟩

/-- The admission errors of the spec's taxonomy; the code raises them as
`anyhow` errors with the messages "Tx to self", "Insufficient balance",
"Nonce too low", and the signature collaborator's error. -/
inductive AdmissionError where
  | badSignature
  | selfTransfer
  | insufficientBalance
  | nonceTooLow
  deriving DecidableEq, Repr

/-- `verify_tx_signature` (main.rs line 156): delegates to the external
signature collaborator, modelled by the validity bit carried on the blob. -/
def verify_tx_signature (stx : SignedTx) : Except AdmissionError Unit :=
  if stx.signature.valid then Except.ok () else Except.error AdmissionError.badSignature

/-- The sender address derived inside `validate_tx` / `apply_tx`. -/
def sender_addr (stx : SignedTx) : Address := stx.tx.sender.address

/-- The recipient address derived inside `apply_tx`. -/
def to_addr (stx : SignedTx) : Address := stx.tx.«to».address

/-- `validate_tx` (main.rs lines 115–131): signature check, then self-transfer,
then balance, then nonce, short-circuiting on the first failure; pure in the
snapshot. -/
def validate_tx (state : State) (stx : SignedTx) : Except AdmissionError Unit :=
  match verify_tx_signature stx with
  | Except.error e => Except.error e
  | Except.ok _ =>
    let account := state.get (sender_addr stx)
    if stx.tx.sender = stx.tx.«to» then
      Except.error AdmissionError.selfTransfer
    else if account.balance < stx.tx.value then
      Except.error AdmissionError.insufficientBalance
    else if account.nonce ≥ stx.tx.nonce then
      Except.error AdmissionError.nonceTooLow
    else
      Except.ok ()

/-- `apply_tx` (main.rs lines 133–154): read both accounts, debit the sender
and set its nonce, credit the recipient keeping its nonce, writing the sender
first and the recipient second.  The Rust `U256` subtraction panics on
underflow; the `Nat` model truncates there, and the no-underflow side
condition is what the batch theorems establish or refute. -/
def apply_tx (state : State) (stx : SignedTx) : State :=
  let sa := sender_addr stx
  let ta := to_addr stx
  let account_sender := state.get sa
  let account_to := state.get ta
  let new_account_sender : Account := ⟨sa, account_sender.balance - stx.tx.value, stx.tx.nonce⟩
  let new_account_to : Account := ⟨ta, account_to.balance + stx.tx.value, account_to.nonce⟩
  (state.update sa new_account_sender).update ta new_account_to

/-- The atomic drain-and-filter cutting a batch (main.rs lines 68–73): empty
the mempool and keep, in arrival order, the transactions that pass
`validate_tx` against the current authoritative snapshot. -/
def drain_valid (state : State) (mempool : List SignedTx) : List SignedTx :=
  mempool.filter (fun tx => (validate_tx state tx).isOk)

/-- The snapshot chain built in the Transitioning phase (main.rs lines 75–78):
`states = vec![state]` then one `apply_tx` push per drained transaction. -/
def snapshotChain (s0 : State) : List SignedTx → List State
  | [] => [s0]
  | tx :: txs => s0 :: snapshotChain (apply_tx s0 tx) txs

/-- A placeholder transaction used as the `getD` default in index-wise
statements (never reachable under the stated bounds). -/
def dummyTx : SignedTx :=
  ⟨⟨TxKind.Transfer, ⟨0⟩, ⟨0⟩, 0, 0⟩, ⟨true⟩⟩

/-- Modelled from the spec: `ProofError`, the opaque failure of the external
prover (`Prover::prove` is not under src/); the code only formats it. -/
structure ProofError where
  msg : String
  deriving DecidableEq, Repr

/-- Modelled from the spec: `TxProof`, the opaque artifact produced by the
external prover and passed through to `submit_block`; no internal structure is
inspected by the core, so it is modelled as an opaque tag. -/
structure TxProof where
  tag : Nat
  deriving DecidableEq, Repr

/-- One proof request's outcome. -/
abbrev ProofResult := Except ProofError TxProof

/-- The Proving phase (main.rs lines 83–95): `states.windows(2).zip(txs)`
spawns `request_proof(tx, pre, post)` per adjacent snapshot pair, then every
task is awaited in spawn order and its outcome collected.  The external
`Prover::prove` is passed in as the parameter `prover`; the join-all in index
order makes the collected list independent of completion timing, which the
sequential model renders as a map over the zipped pairs. -/
def dispatch_proofs (prover : SignedTx → State → State → ProofResult)
    (states : List State) (txs : List SignedTx) : List ProofResult :=
  ((states.zip states.tail).zip txs).map (fun p => prover p.2 p.1.1 p.1.2)

/-- Modelled from the spec: `SettlementError`, a settlement-layer submission
failure (network/contract rejection) from the external `submit_block` call. -/
structure SettlementError where
  msg : String
  deriving DecidableEq, Repr

/-- What the Submitting phase does with one collected result. -/
inductive SubmitEvent where
  | logged (e : ProofError)
  | submitted (p : TxProof)
  deriving DecidableEq, Repr

/-- The Submitting phase (main.rs lines 97–109): iterate the collected
results in order; an `Err(ProofError)` is printed and skipped, an `Ok(proof)`
is submitted via `l1_contract.submit_block([proof]).send().await.unwrap()`.
The `unwrap()` panics the process when the submission itself fails, which the
model renders as `none`; `some events` is the normal trace of logs and
acknowledged submissions. -/
def submit_loop (submit : TxProof → Except SettlementError Unit) :
    List ProofResult → Option (List SubmitEvent)
  | [] => some []
  | Except.error e :: rest =>
      (submit_loop submit rest).map (fun evs => SubmitEvent.logged e :: evs)
  | Except.ok p :: rest =>
      match submit p with
      | Except.error _ => none
      | Except.ok _ =>
          (submit_loop submit rest).map (fun evs => SubmitEvent.submitted p :: evs)

end Trollup

namespace Fusion

/-- Modelled from the spec: `fusion_types::PublicKey` is external to src/;
fusion-api only stores and (in the commented-out hash) serializes it, so it is
modelled as its numeric value. -/
structure PublicKey where
  key : Nat
  deriving DecidableEq, Repr

/-- fusion-api's transaction kind (src/fusion-api/src/lib.rs). -/
inductive TxKind where
  | Transfer
  | Deposit
  | Withdraw
  deriving DecidableEq, Repr

/-- fusion-api's `Tx` record (src/fusion-api/src/lib.rs); `U256` fields are
modelled as `Nat`. -/
structure Tx where
  kind : TxKind
  sender : PublicKey
  «to» : PublicKey
  nonce : Nat
  value : Nat
  deriving DecidableEq, Repr

/-- `hash_tx` (src/fusion-api/src/lib.rs lines 61–80): the body is
`U256::ZERO`; the Poseidon hash is commented out. -/
def hash_tx (_tx : Tx) : Nat := 0

end Fusion

namespace Trollup

/-- Equality of `Except` values is decidable when it is on both sides; used to
evaluate the embedded functions on concrete inputs. -/
instance {ε α : Type} [DecidableEq ε] [DecidableEq α] : DecidableEq (Except ε α) := fun a b =>
  match a, b with
  | Except.ok x, Except.ok y =>
      if h : x = y then isTrue (congrArg Except.ok h)
      else isFalse (fun hc => h (Except.ok.inj hc))
  | Except.error e, Except.error f =>
      if h : e = f then isTrue (congrArg Except.error h)
      else isFalse (fun hc => h (Except.error.inj hc))
  | Except.ok _, Except.error _ => isFalse (fun hc => Except.noConfusion hc)
  | Except.error _, Except.ok _ => isFalse (fun hc => Except.noConfusion hc)

/-- Acceptance characterization of `validate_tx`, used throughout. -/
theorem validate_tx_ok_iff (s : State) (stx : SignedTx) :
    validate_tx s stx = Except.ok () ↔
      stx.signature.valid = true ∧ stx.tx.sender ≠ stx.tx.«to» ∧
      stx.tx.value ≤ (s.get (sender_addr stx)).balance ∧
      (s.get (sender_addr stx)).nonce < stx.tx.nonce := by
  unfold validate_tx verify_tx_signature
  cases h : stx.signature.valid <;>
      simp only [h, if_true, if_false, Bool.true_eq_false, Bool.false_eq_true] <;>
    first
      | ((split_ifs <;> simp_all) <;> omega)
      | simp_all
      | omega

/-- `validate_tx` reports `BadSignature` exactly when verification fails. -/
theorem validate_tx_badSignature_iff (s : State) (stx : SignedTx) :
    validate_tx s stx = Except.error AdmissionError.badSignature ↔
      ¬ stx.signature.valid = true := by
  unfold validate_tx verify_tx_signature
  cases h : stx.signature.valid <;>
      simp only [h, if_true, if_false, Bool.true_eq_false, Bool.false_eq_true] <;>
    first
      | ((split_ifs <;> simp_all) <;> omega)
      | simp_all
      | omega

/-- `validate_tx` reports `SelfTransfer` exactly when the signature verifies
and the sender equals the recipient. -/
theorem validate_tx_selfTransfer_iff (s : State) (stx : SignedTx) :
    validate_tx s stx = Except.error AdmissionError.selfTransfer ↔
      stx.signature.valid = true ∧ stx.tx.sender = stx.tx.«to» := by
  unfold validate_tx verify_tx_signature
  cases h : stx.signature.valid <;>
      simp only [h, if_true, if_false, Bool.true_eq_false, Bool.false_eq_true] <;>
    first
      | ((split_ifs <;> simp_all) <;> omega)
      | simp_all
      | omega

/-- `validate_tx` reports `InsufficientBalance` exactly when the two earlier
checks pass and the sender's balance is below the value. -/
theorem validate_tx_insufficientBalance_iff (s : State) (stx : SignedTx) :
    validate_tx s stx = Except.error AdmissionError.insufficientBalance ↔
      stx.signature.valid = true ∧ stx.tx.sender ≠ stx.tx.«to» ∧
      (s.get (sender_addr stx)).balance < stx.tx.value := by
  unfold validate_tx verify_tx_signature
  cases h : stx.signature.valid <;>
      simp only [h, if_true, if_false, Bool.true_eq_false, Bool.false_eq_true] <;>
    first
      | ((split_ifs <;> simp_all) <;> omega)
      | simp_all
      | omega

/-- `validate_tx` reports `NonceTooLow` exactly when the three earlier checks
pass and the transaction nonce is not above the stored nonce. -/
theorem validate_tx_nonceTooLow_iff (s : State) (stx : SignedTx) :
    validate_tx s stx = Except.error AdmissionError.nonceTooLow ↔
      stx.signature.valid = true ∧ stx.tx.sender ≠ stx.tx.«to» ∧
      stx.tx.value ≤ (s.get (sender_addr stx)).balance ∧
      stx.tx.nonce ≤ (s.get (sender_addr stx)).nonce := by
  unfold validate_tx verify_tx_signature
  cases h : stx.signature.valid <;>
      simp only [h, if_true, if_false, Bool.true_eq_false, Bool.false_eq_true] <;>
    first
      | ((split_ifs <;> simp_all) <;> omega)
      | simp_all
      | omega

/-- `C4`: `validate_tx` succeeds exactly when the signature verifies, the
sender differs from the recipient, the sender's balance covers the value and
the sender's stored nonce is below the transaction nonce; on failure it
returns the error of the first failing check in the fixed order signature,
self-transfer, balance, nonce.  It is a pure function of the snapshot, so the
snapshot is unaffected. -/
theorem validate_tx_characterization (s : State) (stx : SignedTx) :
    (validate_tx s stx = Except.ok () ↔
      stx.signature.valid = true ∧ stx.tx.sender ≠ stx.tx.«to» ∧
      stx.tx.value ≤ (s.get (sender_addr stx)).balance ∧
      (s.get (sender_addr stx)).nonce < stx.tx.nonce) ∧
    (validate_tx s stx = Except.error AdmissionError.badSignature ↔
      ¬ stx.signature.valid = true) ∧
    (validate_tx s stx = Except.error AdmissionError.selfTransfer ↔
      stx.signature.valid = true ∧ stx.tx.sender = stx.tx.«to») ∧
    (validate_tx s stx = Except.error AdmissionError.insufficientBalance ↔
      stx.signature.valid = true ∧ stx.tx.sender ≠ stx.tx.«to» ∧
      (s.get (sender_addr stx)).balance < stx.tx.value) ∧
    (validate_tx s stx = Except.error AdmissionError.nonceTooLow ↔
      stx.signature.valid = true ∧ stx.tx.sender ≠ stx.tx.«to» ∧
      stx.tx.value ≤ (s.get (sender_addr stx)).balance ∧
      stx.tx.nonce ≤ (s.get (sender_addr stx)).nonce) :=
  ⟨validate_tx_ok_iff s stx, validate_tx_badSignature_iff s stx,
   validate_tx_selfTransfer_iff s stx, validate_tx_insufficientBalance_iff s stx,
   validate_tx_nonceTooLow_iff s stx⟩

end Trollup

namespace Trollup

/-- Pointwise description of `apply_tx`: the recipient address holds the
credited account (the second, winning write), the sender address the debited
one, and every other address is untouched. -/
theorem apply_tx_get (s : State) (stx : SignedTx) (x : Address) :
    (apply_tx s stx).get x =
      if x = to_addr stx then
        ⟨to_addr stx, (s.get (to_addr stx)).balance + stx.tx.value,
         (s.get (to_addr stx)).nonce⟩
      else if x = sender_addr stx then
        ⟨sender_addr stx, (s.get (sender_addr stx)).balance - stx.tx.value, stx.tx.nonce⟩
      else s.get x := rfl

/-- Frame: `apply_tx` leaves every address other than the derived sender and
recipient addresses untouched. -/
theorem apply_tx_frame (s : State) (stx : SignedTx) (x : Address)
    (hs : x ≠ sender_addr stx) (ht : x ≠ to_addr stx) :
    (apply_tx s stx).get x = s.get x := by
  rw [apply_tx_get, if_neg ht, if_neg hs]

/-- When the derived addresses differ, the sender's account after `apply_tx`
is the debited one with the transaction nonce. -/
theorem apply_tx_get_sender (s : State) (stx : SignedTx)
    (h : sender_addr stx ≠ to_addr stx) :
    (apply_tx s stx).get (sender_addr stx) =
      ⟨sender_addr stx, (s.get (sender_addr stx)).balance - stx.tx.value, stx.tx.nonce⟩ := by
  rw [apply_tx_get, if_neg h, if_pos rfl]

/-- The recipient's account after `apply_tx` is the credited one with its
nonce unchanged (the recipient write is the last one, so this needs no
distinctness assumption). -/
theorem apply_tx_get_recipient (s : State) (stx : SignedTx) :
    (apply_tx s stx).get (to_addr stx) =
      ⟨to_addr stx, (s.get (to_addr stx)).balance + stx.tx.value,
       (s.get (to_addr stx)).nonce⟩ := by
  rw [apply_tx_get, if_pos rfl]

/-- Distinct public keys derive distinct addresses in this model. -/
theorem addr_ne_of_pk_ne {stx : SignedTx} (h : stx.tx.sender ≠ stx.tx.«to») :
    sender_addr stx ≠ to_addr stx := by
  intro hc
  apply h
  cases hsnd : stx.tx.sender
  cases hto : stx.tx.«to»
  simp only [sender_addr, to_addr, PublicKey.address, hsnd, hto] at hc
  simp [hc]

/-- Concrete snapshot used to instantiate theorems: address 1 holds balance
100 at nonce 0, every other address holds the zero account. -/
def exState : State := ⟨fun a => if a = 1 then ⟨1, 100, 0⟩ else ⟨a, 0, 0⟩⟩

/-- A validly signed transfer from key 1 to key 2 with the given nonce and
value. -/
def exTx (nonce value : Nat) : SignedTx :=
  ⟨⟨TxKind.Transfer, ⟨1⟩, ⟨2⟩, nonce, value⟩, ⟨true⟩⟩

/-- The same transfer shape with a signature that fails verification. -/
def exTxBadSig (nonce value : Nat) : SignedTx :=
  ⟨⟨TxKind.Transfer, ⟨1⟩, ⟨2⟩, nonce, value⟩, ⟨false⟩⟩

end Trollup

namespace Trollup

/-- `C5` counterexample: with only the claim's hypothesis — validation against
an ancestor of the snapshot being applied to — the stated effect fails.  From
`exState` (sender balance 100), `exTx 2 100` passes the filter against the
ancestor `exState`, yet applying it after `exTx 1 100` has drained the sender
does not decrease the sender's balance by the value (the `U256` code would
panic on the underflow instead). -/
theorem apply_tx_effect_cex :
    validate_tx exState (exTx 2 100) = Except.ok () ∧
    ¬ (((apply_tx (apply_tx exState (exTx 1 100)) (exTx 2 100)).get
          (sender_addr (exTx 2 100))).balance + (exTx 2 100).tx.value
        = ((apply_tx exState (exTx 1 100)).get (sender_addr (exTx 2 100))).balance) :=
  ⟨by decide, by decide⟩

/-- `C5` (amended): for a transaction that passed the Admission Filter against
the snapshot it is applied to (rather than merely against some ancestor), the
sender's account at the derived sender address is debited by the value with
its nonce set to the transaction nonce, and the recipient's account at the
derived recipient address is credited by the value with its nonce
unchanged. -/
theorem apply_tx_effect (s : State) (stx : SignedTx)
    (h : validate_tx s stx = Except.ok ()) :
    ((apply_tx s stx).get (sender_addr stx)).balance + stx.tx.value
        = (s.get (sender_addr stx)).balance ∧
    ((apply_tx s stx).get (sender_addr stx)).nonce = stx.tx.nonce ∧
    ((apply_tx s stx).get (sender_addr stx)).address = sender_addr stx ∧
    ((apply_tx s stx).get (to_addr stx)).balance
        = (s.get (to_addr stx)).balance + stx.tx.value ∧
    ((apply_tx s stx).get (to_addr stx)).nonce = (s.get (to_addr stx)).nonce ∧
    ((apply_tx s stx).get (to_addr stx)).address = to_addr stx := by
  obtain ⟨hsig, hne, hbal, hn⟩ := (validate_tx_ok_iff s stx).mp h
  have hane := addr_ne_of_pk_ne hne
  rw [apply_tx_get_sender s stx hane, apply_tx_get_recipient]
  dsimp only
  refine ⟨?_, rfl, rfl, rfl, rfl, rfl⟩
  omega

/-- Witness for `C5`: the spec's own end-to-end scenario, a 40-value transfer
from a 100-balance account, validated against the very snapshot it is applied
to. -/
theorem apply_tx_effect_witness :
    validate_tx exState (exTx 1 40) = Except.ok () ∧
    ((apply_tx exState (exTx 1 40)).get (sender_addr (exTx 1 40))).nonce
      = (exTx 1 40).tx.nonce :=
  ⟨by decide, (apply_tx_effect exState (exTx 1 40) (by decide)).2.1⟩

/-- `C6`: `apply_tx` conserves total value for a transaction validated against
the snapshot it is applied to: over any finite set of addresses containing the
derived sender and recipient addresses (every address outside it being
untouched by `apply_tx_frame`), the balances sum to the same total before and
after. -/
theorem apply_tx_conserves_total_value (s : State) (stx : SignedTx)
    (h : validate_tx s stx = Except.ok ()) (A : Finset Address)
    (hs : sender_addr stx ∈ A) (ht : to_addr stx ∈ A) :
    ∑ a ∈ A, ((apply_tx s stx).get a).balance = ∑ a ∈ A, (s.get a).balance := by
  obtain ⟨hsig, hne, hbal, hn⟩ := (validate_tx_ok_iff s stx).mp h
  have hane := addr_ne_of_pk_ne hne
  have hta : to_addr stx ∈ A.erase (sender_addr stx) :=
    Finset.mem_erase.mpr ⟨Ne.symm hane, ht⟩
  rw [← Finset.insert_erase hs]
  rw [Finset.sum_insert (Finset.not_mem_erase _ _),
      Finset.sum_insert (Finset.not_mem_erase _ _)]
  rw [← Finset.insert_erase hta]
  rw [Finset.sum_insert (Finset.not_mem_erase _ _),
      Finset.sum_insert (Finset.not_mem_erase _ _)]
  have hrest : ∑ a ∈ (A.erase (sender_addr stx)).erase (to_addr stx),
        ((apply_tx s stx).get a).balance
      = ∑ a ∈ (A.erase (sender_addr stx)).erase (to_addr stx), (s.get a).balance := by
    refine Finset.sum_congr rfl ?_
    intro x hx
    have hx1 := Finset.mem_erase.mp hx
    have hx2 := Finset.mem_erase.mp hx1.2
    rw [apply_tx_frame s stx x hx2.1 hx1.1]
  rw [hrest, apply_tx_get_sender s stx hane, apply_tx_get_recipient]
  dsimp only
  omega

/-- Witness for `C6`: conservation on the concrete 40-value transfer over the
two touched addresses. -/
theorem apply_tx_conserves_total_value_witness :
    validate_tx exState (exTx 1 40) = Except.ok () ∧
    ∑ a ∈ ({1, 2} : Finset Address), ((apply_tx exState (exTx 1 40)).get a).balance
      = ∑ a ∈ ({1, 2} : Finset Address), (exState.get a).balance :=
  ⟨by decide,
   apply_tx_conserves_total_value exState (exTx 1 40) (by decide) {1, 2}
     (by decide) (by decide)⟩

/-- `C9` counterexample: a transaction whose stored nonce is not below its
account nonce but whose signature fails verification is rejected as
`BadSignature`, not `NonceTooLow` — the nonce check is the last of the four
short-circuited checks, so the claim's unconditional quantification fails. -/
theorem validate_tx_nonceTooLow_cex :
    (exTxBadSig 0 0).tx.nonce ≤ (exState.get (sender_addr (exTxBadSig 0 0))).nonce ∧
    validate_tx exState (exTxBadSig 0 0) ≠ Except.error AdmissionError.nonceTooLow ∧
    validate_tx exState (exTxBadSig 0 0) = Except.error AdmissionError.badSignature :=
  ⟨by decide, by decide, by decide⟩

/-- `C9` (amended): for every snapshot and signed transaction passing the
three earlier checks (signature verifies, sender differs from recipient,
balance covers the value), `account(sender).nonce >= tx.nonce` makes
`validate_tx` return the `NonceTooLow` error. -/
theorem validate_tx_nonceTooLow_of_checks (s : State) (stx : SignedTx)
    (hsig : stx.signature.valid = true)
    (hne : stx.tx.sender ≠ stx.tx.«to»)
    (hbal : stx.tx.value ≤ (s.get (sender_addr stx)).balance)
    (hnonce : stx.tx.nonce ≤ (s.get (sender_addr stx)).nonce) :
    validate_tx s stx = Except.error AdmissionError.nonceTooLow :=
  (validate_tx_nonceTooLow_iff s stx).mpr ⟨hsig, hne, hbal, hnonce⟩

/-- Witness for `C9` (amended): the spec's replay scenario, a stale nonce on
an otherwise valid transfer. -/
theorem validate_tx_nonceTooLow_of_checks_witness :
    validate_tx exState (exTx 0 5) = Except.error AdmissionError.nonceTooLow :=
  validate_tx_nonceTooLow_of_checks exState (exTx 0 5) rfl (by decide) (by decide)
    (by decide)

end Trollup

namespace Fusion

/-- `C10`: `hash_tx` is a stub: it returns the constant zero for every
transaction, independent of kind, sender, recipient, nonce and value, so all
transactions share the same hash. -/
theorem hash_tx_constant_zero (tx : Tx) :
    hash_tx tx = 0 ∧ ∀ tx2 : Tx, hash_tx tx = hash_tx tx2 :=
  ⟨rfl, fun _ => rfl⟩

end Fusion

namespace Trollup

/-- The chain has one snapshot more than the batch has transactions. -/
theorem snapshotChain_length (s0 : State) (txs : List SignedTx) :
    (snapshotChain s0 txs).length = txs.length + 1 := by
  induction txs generalizing s0 with
  | nil => rfl
  | cons tx txs ih => simp [snapshotChain, ih]

/-- The chain starts at the pre-batch snapshot. -/
theorem snapshotChain_getD_zero (s0 d : State) (txs : List SignedTx) :
    (snapshotChain s0 txs).getD 0 d = s0 := by
  cases txs <;> rfl

/-- Each chain entry follows from its predecessor by one `apply_tx`. -/
theorem snapshotChain_getD_step (s0 d : State) (txs : List SignedTx) (i : Nat)
    (hi : i < txs.length) :
    (snapshotChain s0 txs).getD (i + 1) d
      = apply_tx ((snapshotChain s0 txs).getD i d) (txs.getD i dummyTx) := by
  induction txs generalizing s0 i with
  | nil => cases hi
  | cons tx txs ih =>
    cases i with
    | zero => exact snapshotChain_getD_zero (apply_tx s0 tx) d txs
    | succ n =>
      have hn : n < txs.length := by simpa using hi
      exact ih (apply_tx s0 tx) n hn

/-- The chain's last entry is the fold of `apply_tx` over the whole batch. -/
theorem snapshotChain_getLast (s0 : State) (txs : List SignedTx) :
    (snapshotChain s0 txs).getLast? = some (txs.foldl apply_tx s0) := by
  induction txs generalizing s0 with
  | nil => rfl
  | cons tx txs ih =>
    rcases hsh : snapshotChain (apply_tx s0 tx) txs with _ | ⟨s1, rest⟩
    · have := snapshotChain_length (apply_tx s0 tx) txs
      rw [hsh] at this
      simp at this
    · show (s0 :: snapshotChain (apply_tx s0 tx) txs).getLast? = _
      rw [hsh, List.getLast?_cons_cons, ← hsh, ih]
      rfl

/-- `C7`: for a batch of `n` admitted transactions the Transitioning phase
produces exactly `n + 1` snapshots, starting at the pre-batch authoritative
snapshot, with each entry obtained from its predecessor by `apply_tx` on the
matching transaction; consecutive snapshots agree on every address other than
the derived sender and recipient addresses of that transaction; and the
authoritative snapshot afterwards — the chain's last entry — is the full fold
`Sn`. -/
theorem transitioning_chain_correct (s0 : State) (txs : List SignedTx) :
    (snapshotChain s0 txs).length = txs.length + 1 ∧
    (snapshotChain s0 txs).getD 0 s0 = s0 ∧
    (∀ i, i < txs.length →
      (snapshotChain s0 txs).getD (i + 1) s0
        = apply_tx ((snapshotChain s0 txs).getD i s0) (txs.getD i dummyTx)) ∧
    (∀ i, i < txs.length → ∀ x : Address,
      x ≠ sender_addr (txs.getD i dummyTx) → x ≠ to_addr (txs.getD i dummyTx) →
      (((snapshotChain s0 txs).getD (i + 1) s0).get x)
        = (((snapshotChain s0 txs).getD i s0).get x)) ∧
    (snapshotChain s0 txs).getLast? = some (txs.foldl apply_tx s0) := by
  refine ⟨snapshotChain_length s0 txs, snapshotChain_getD_zero s0 s0 txs,
    fun i hi => snapshotChain_getD_step s0 s0 txs i hi, ?_,
    snapshotChain_getLast s0 txs⟩
  intro i hi x hxs hxt
  rw [snapshotChain_getD_step s0 s0 txs i hi,
    apply_tx_frame _ _ _ hxs hxt]

/-- Witness for `C7`: the step and frame conjuncts instantiated on a singleton
batch from the concrete snapshot. -/
theorem transitioning_chain_correct_witness :
    0 < ([exTx 1 40] : List SignedTx).length ∧
    (snapshotChain exState [exTx 1 40]).getD 1 exState
      = apply_tx ((snapshotChain exState [exTx 1 40]).getD 0 exState)
          ([exTx 1 40].getD 0 dummyTx) ∧
    ((3 : Address) ≠ sender_addr ([exTx 1 40].getD 0 dummyTx) ∧
     ((snapshotChain exState [exTx 1 40]).getD 1 exState).get 3
       = ((snapshotChain exState [exTx 1 40]).getD 0 exState).get 3) :=
  ⟨by decide,
   (transitioning_chain_correct exState [exTx 1 40]).2.2.1 0 (by decide),
   by decide,
   (transitioning_chain_correct exState [exTx 1 40]).2.2.2.1 0 (by decide) 3
     (by decide) (by decide)⟩

end Trollup

namespace Trollup

/-- Membership in the drained batch means `validate_tx` accepted the
transaction against the pre-batch snapshot. -/
theorem mem_drain_valid (s0 : State) (mempool : List SignedTx) (tx : SignedTx)
    (h : tx ∈ drain_valid s0 mempool) : validate_tx s0 tx = Except.ok () := by
  have hmem := List.mem_filter.mp h
  rcases hv : validate_tx s0 tx with e | u
  · rw [hv] at hmem
    simp [Except.isOk, Except.toBool] at hmem
  · cases u
    rfl

/-- One `apply_tx` step never decreases the balance of an address that is not
the transaction's derived sender address. -/
theorem apply_tx_balance_mono (s : State) (stx : SignedTx) (a : Address)
    (h : sender_addr stx ≠ a) :
    (s.get a).balance ≤ ((apply_tx s stx).get a).balance := by
  rw [apply_tx_get]
  by_cases hta : a = to_addr stx
  · rw [if_pos hta, hta]
    exact Nat.le_add_right _ _
  · rw [if_neg hta, if_neg (Ne.symm h)]

/-- Underflow-freedom along a chain whose transactions all cover their value
in the starting snapshot and have pairwise distinct sender addresses. -/
theorem chain_no_underflow_aux (txs : List SignedTx) (s : State)
    (hval : ∀ tx ∈ txs, tx.tx.value ≤ (s.get (sender_addr tx)).balance)
    (hdist : txs.Pairwise (fun a b => sender_addr a ≠ sender_addr b)) :
    ∀ (d : State) (i : Nat), i < txs.length →
      (txs.getD i dummyTx).tx.value
        ≤ (((snapshotChain s txs).getD i d).get
            (sender_addr (txs.getD i dummyTx))).balance := by
  induction txs generalizing s with
  | nil => intro d i hi; cases hi
  | cons tx txs ih =>
    intro d i hi
    have hd := List.pairwise_cons.mp hdist
    cases i with
    | zero => exact hval tx (List.mem_cons_self _ _)
    | succ n =>
      have hn : n < txs.length := by simpa using hi
      have hval' : ∀ t ∈ txs,
          t.tx.value ≤ ((apply_tx s tx).get (sender_addr t)).balance := by
        intro t ht
        exact le_trans (hval t (List.mem_cons_of_mem _ ht))
          (apply_tx_balance_mono s tx _ (hd.1 t ht))
      exact ih (apply_tx s tx) hval' hd.2 d n hn

/-- `C1` counterexample: with sender balance 100, the two transfers
`exTx 1 100` and `exTx 2 100` both pass `validate_tx` against the pre-batch
snapshot and are both kept by the drain, yet at step 2 the sender's balance in
`S1` is 0, below the second transfer's value of 100 — the fold observes an
underflow (the Rust `U256` subtraction would panic there). -/
theorem batch_no_underflow_cex :
    drain_valid exState [exTx 1 100, exTx 2 100] = [exTx 1 100, exTx 2 100] ∧
    ¬ (((drain_valid exState [exTx 1 100, exTx 2 100]).getD 1 dummyTx).tx.value
        ≤ (((snapshotChain exState
              (drain_valid exState [exTx 1 100, exTx 2 100])).getD 1 exState).get
            (sender_addr
              ((drain_valid exState [exTx 1 100, exTx 2 100]).getD 1 dummyTx))).balance) :=
  ⟨by decide, by decide⟩

/-- `C1` (amended): the drain-and-filter validates every mempool transaction
against the same pre-batch snapshot, so underflow-freedom of the fold holds
only when no two accepted transactions share a sender address: then at each
step the sender's balance in the preceding snapshot covers the transaction's
value (the accepted sender was only credited, never debited, before its own
step). -/
theorem batch_no_underflow (s0 : State) (mempool : List SignedTx)
    (hdist : (drain_valid s0 mempool).Pairwise
      (fun a b => sender_addr a ≠ sender_addr b))
    (i : Nat) (hi : i < (drain_valid s0 mempool).length) :
    ((drain_valid s0 mempool).getD i dummyTx).tx.value
      ≤ (((snapshotChain s0 (drain_valid s0 mempool)).getD i s0).get
          (sender_addr ((drain_valid s0 mempool).getD i dummyTx))).balance := by
  refine chain_no_underflow_aux (drain_valid s0 mempool) s0 ?_ hdist s0 i hi
  intro tx htx
  exact ((validate_tx_ok_iff s0 tx).mp (mem_drain_valid s0 mempool tx htx)).2.2.1

/-- Witness for `C1` (amended): a singleton batch from the concrete
snapshot. -/
theorem batch_no_underflow_witness :
    (drain_valid exState [exTx 1 40]).Pairwise
      (fun a b => sender_addr a ≠ sender_addr b) ∧
    0 < (drain_valid exState [exTx 1 40]).length ∧
    ((drain_valid exState [exTx 1 40]).getD 0 dummyTx).tx.value
      ≤ (((snapshotChain exState (drain_valid exState [exTx 1 40])).getD 0 exState).get
          (sender_addr ((drain_valid exState [exTx 1 40]).getD 0 dummyTx))).balance :=
  ⟨by decide, by decide,
   batch_no_underflow exState [exTx 1 40] (by decide) 0 (by decide)⟩

/-- `C2` counterexample: `exTx 1 10` and `exTx 1 20` share the sender and the
nonce 1; both pass `validate_tx` against the pre-batch snapshot (stored nonce
0 < 1) and both are kept by the drain in arrival order, so the later accepted
transaction's nonce is not strictly greater than the earlier one's. -/
theorem drain_valid_nonce_cex :
    drain_valid exState [exTx 1 10, exTx 1 20] = [exTx 1 10, exTx 1 20] ∧
    sender_addr (exTx 1 10) = sender_addr (exTx 1 20) ∧
    ¬ ((exTx 1 10).tx.nonce < (exTx 1 20).tx.nonce) :=
  ⟨by decide, by decide, by decide⟩

/-- `C2` (amended): every transaction accepted by the drain-and-filter has a
nonce strictly greater than its sender's nonce in the pre-batch snapshot; the
filter compares each candidate against that one snapshot only, so strict
increase between two accepted transactions of the same sender is not
guaranteed. -/
theorem drain_valid_nonce_above_snapshot (s0 : State) (mempool : List SignedTx)
    (tx : SignedTx) (h : tx ∈ drain_valid s0 mempool) :
    (s0.get (sender_addr tx)).nonce < tx.tx.nonce :=
  ((validate_tx_ok_iff s0 tx).mp (mem_drain_valid s0 mempool tx h)).2.2.2

/-- Witness for `C2` (amended): the accepted nonce-1 transfer against the
nonce-0 account. -/
theorem drain_valid_nonce_above_snapshot_witness :
    exTx 1 10 ∈ drain_valid exState [exTx 1 10] ∧
    (exState.get (sender_addr (exTx 1 10))).nonce < (exTx 1 10).tx.nonce :=
  ⟨by decide,
   drain_valid_nonce_above_snapshot exState [exTx 1 10] (exTx 1 10) (by decide)⟩

end Trollup

namespace Trollup

/-- Unfolding one step of the dispatch over the chain of a nonempty batch. -/
theorem dispatch_proofs_chain_cons (prover : SignedTx → State → State → ProofResult)
    (s0 : State) (tx : SignedTx) (txs : List SignedTx) :
    dispatch_proofs prover (snapshotChain s0 (tx :: txs)) (tx :: txs)
      = prover tx s0 (apply_tx s0 tx)
          :: dispatch_proofs prover (snapshotChain (apply_tx s0 tx) txs) txs := by
  cases txs <;> rfl

/-- The dispatch issues exactly one request per transaction. -/
theorem dispatch_proofs_length (prover : SignedTx → State → State → ProofResult)
    (s0 : State) (txs : List SignedTx) :
    (dispatch_proofs prover (snapshotChain s0 txs) txs).length = txs.length := by
  induction txs generalizing s0 with
  | nil => rfl
  | cons tx txs ih =>
    rw [dispatch_proofs_chain_cons, List.length_cons, ih]
    rfl

/-- A default result for out-of-range `getD` reads of the collected list. -/
def dummyResult : ProofResult := Except.error ⟨""⟩

/-- Index-wise contents of the collected results, for any `getD` default. -/
theorem dispatch_proofs_getD (prover : SignedTx → State → State → ProofResult)
    (s0 d : State) (txs : List SignedTx) (i : Nat) (hi : i < txs.length) :
    (dispatch_proofs prover (snapshotChain s0 txs) txs).getD i dummyResult
      = prover (txs.getD i dummyTx) ((snapshotChain s0 txs).getD i d)
          ((snapshotChain s0 txs).getD (i + 1) d) := by
  induction txs generalizing s0 i with
  | nil => cases hi
  | cons tx txs ih =>
    rw [dispatch_proofs_chain_cons]
    cases i with
    | zero =>
      show prover tx s0 (apply_tx s0 tx)
        = prover tx ((snapshotChain s0 (tx :: txs)).getD 0 d)
            ((snapshotChain s0 (tx :: txs)).getD 1 d)
      rw [snapshotChain_getD_zero,
        show (snapshotChain s0 (tx :: txs)).getD 1 d
            = (snapshotChain (apply_tx s0 tx) txs).getD 0 d from rfl,
        snapshotChain_getD_zero]
    | succ n =>
      have hn : n < txs.length := by simpa using hi
      exact ih (apply_tx s0 tx) n hn

/-- `C8`: over the chain of a batch of `n` admitted transactions, the Proving
phase collects exactly `n` results, and the result at index `i` is the
outcome of the external prover on transaction `i` with pre-snapshot `S_i` and
post-snapshot `S_{i+1}` — the join happens in spawn (index) order, for every
request, regardless of completion timing, so the collected list is this map
for any prover outcome function. -/
theorem proving_results_aligned (prover : SignedTx → State → State → ProofResult)
    (s0 : State) (txs : List SignedTx) :
    (dispatch_proofs prover (snapshotChain s0 txs) txs).length = txs.length ∧
    ∀ i, i < txs.length →
      (dispatch_proofs prover (snapshotChain s0 txs) txs).getD i dummyResult
        = prover (txs.getD i dummyTx) ((snapshotChain s0 txs).getD i s0)
            ((snapshotChain s0 txs).getD (i + 1) s0) :=
  ⟨dispatch_proofs_length prover s0 txs,
   fun i hi => dispatch_proofs_getD prover s0 s0 txs i hi⟩

/-- Witness for `C8`: a two-transaction batch under a prover that fails on
nonce 2 and succeeds otherwise. -/
theorem proving_results_aligned_witness :
    (dispatch_proofs
        (fun tx _ _ => if tx.tx.nonce = 2 then Except.error ⟨"boom"⟩ else Except.ok ⟨7⟩)
        (snapshotChain exState [exTx 1 10, exTx 2 10]) [exTx 1 10, exTx 2 10]).length
      = 2 ∧
    1 < ([exTx 1 10, exTx 2 10] : List SignedTx).length ∧
    (dispatch_proofs
        (fun tx _ _ => if tx.tx.nonce = 2 then Except.error ⟨"boom"⟩ else Except.ok ⟨7⟩)
        (snapshotChain exState [exTx 1 10, exTx 2 10]) [exTx 1 10, exTx 2 10]).getD 1
          dummyResult
      = (fun tx _ _ => if tx.tx.nonce = 2 then Except.error ⟨"boom"⟩ else Except.ok ⟨7⟩)
          ([exTx 1 10, exTx 2 10].getD 1 dummyTx)
          ((snapshotChain exState [exTx 1 10, exTx 2 10]).getD 1 exState)
          ((snapshotChain exState [exTx 1 10, exTx 2 10]).getD 2 exState) :=
  ⟨(proving_results_aligned
      (fun tx _ _ => if tx.tx.nonce = 2 then Except.error ⟨"boom"⟩ else Except.ok ⟨7⟩)
      exState [exTx 1 10, exTx 2 10]).1,
   by decide,
   (proving_results_aligned
      (fun tx _ _ => if tx.tx.nonce = 2 then Except.error ⟨"boom"⟩ else Except.ok ⟨7⟩)
      exState [exTx 1 10, exTx 2 10]).2 1 (by decide)⟩

/-- `C3` counterexample: a batch whose first result is a good proof but whose
settlement submission is rejected; the `unwrap()` on `send()` panics
(modelled as `none`), so the failure is neither logged-and-skipped nor
non-fatal, and the second good proof is never submitted. -/
theorem submitting_cex :
    submit_loop (fun _ => Except.error ⟨"rejected"⟩)
      [Except.ok ⟨0⟩, Except.ok ⟨1⟩] = none := rfl

/-- `C3` (amended): in the Submitting phase, an `Err(ProofError)` at any
position is logged and skipped while every `Ok` proof before and after it is
still submitted, in order, and proof errors never abort the loop — provided
every settlement-layer submission itself succeeds.  A failing submission is
not logged-and-continued: the `unwrap()` on `send()` panics the process
(modelled as `none`), aborting the rest of the loop. -/
theorem submitting_partial_failure (submit : TxProof → Except SettlementError Unit)
    (results : List ProofResult)
    (hsub : ∀ p : TxProof, Except.ok p ∈ results → submit p = Except.ok ()) :
    submit_loop submit results
      = some (results.map (fun r =>
          match r with
          | Except.error e => SubmitEvent.logged e
          | Except.ok p => SubmitEvent.submitted p)) := by
  induction results with
  | nil => rfl
  | cons r rest ih =>
    have ih' := ih (fun p hp => hsub p (List.mem_cons_of_mem _ hp))
    cases r with
    | error e =>
      rw [List.map_cons]
      show (submit_loop submit rest).map _ = _
      rw [ih']
      rfl
    | ok p =>
      have hp := hsub p (List.mem_cons_self _ _)
      rw [List.map_cons]
      show (match submit p with
        | Except.error _ => none
        | Except.ok _ => (submit_loop submit rest).map
            (fun evs => SubmitEvent.submitted p :: evs)) = _
      rw [hp, ih']
      rfl

/-- Witness for `C3` (amended): an always-acknowledging settlement layer over
a good proof, a proof failure, and another good proof: the failure is logged,
both good proofs are submitted, in order. -/
theorem submitting_partial_failure_witness :
    submit_loop (fun _ => Except.ok ())
        [Except.ok ⟨0⟩, Except.error ⟨"boom"⟩, Except.ok ⟨1⟩]
      = some [SubmitEvent.submitted ⟨0⟩, SubmitEvent.logged ⟨"boom"⟩,
              SubmitEvent.submitted ⟨1⟩] :=
  submitting_partial_failure (fun _ => Except.ok ())
    [Except.ok ⟨0⟩, Except.error ⟨"boom"⟩, Except.ok ⟨1⟩]
    (fun _ _ => rfl)

end Trollup
